import Mathlib

/-!
Verification of the snapshot lifecycle manager of
src/oci_compute/OCI_instance_snapshots.py.

The script stores one JSON document per compute instance in an object
storage bucket, plus advisory lock objects, and runs a fixed sequence of
cloud API calls per operation.  We embed the bucket as an association
list from structured object names to stored values, the cloud control
plane as a read-only environment (instances, VNIC public IPs, per-call
success oracles for put_object and delete_object), and each operation as
a pure function returning an outcome: an optional exit code, the final
bucket, and the ordered trace of successful mutating cloud calls.
-/

set_option autoImplicit false

namespace SnapMgr

/-- Model of a JSON value as stored in the bucket.  The snapshot records
only ever contain strings, booleans, arrays and objects, so numbers and
null are not needed. -/
inductive Json where
  | str : String → Json
  | jbool : Bool → Json
  | arr : List Json → Json
  | obj : List (String × Json) → Json

/-- Lookup of a key in the field list of a JSON object (Python dict
access; keys are unique in every document the script writes). -/
def jsonFieldLookup : List (String × Json) → String → Option Json
  | [], _ => none
  | (k, v) :: t, key => if k = key then some v else jsonFieldLookup t key

/-- Field access on a JSON value: returns the field of an object, and
nothing on any other constructor. -/
def Json.getField : Json → String → Option Json
  | .obj fields, key => jsonFieldLookup fields key
  | _, _ => none

/-- Content of a bucket object, abstracting the stored text.
jsonOf j stands for text that json.loads parses to the value j;
text s stands for text on which json.loads raises (for example the
lock object body "locked", which is not valid JSON). -/
inductive ObjVal where
  | jsonOf : Json → ObjVal
  | text : String → ObjVal

/-- Semantics of json.loads on the stored text: succeeds exactly on
serialized JSON and returns the parsed value. -/
def jsonLoads : ObjVal → Option Json
  | .jsonOf j => some j
  | .text _ => none

/-- Structured object names.  The script uses exactly two name shapes in
the bucket compute_snapshots: lock objects named lock.INSTANCE_OCID and
record objects named INSTANCE_OCID.json.  Instance OCIDs start with
ocid1.instance, so the two shapes never denote the same string and the
structured representation is faithful. -/
inductive ObjName where
  | lockOf : String → ObjName
  | recordOf : String → ObjName
  deriving DecidableEq

/-- True exactly on lock objects, whose string name starts with the
text lock (the list_objects call in the source lists names with that
text as the leading characters). -/
def ObjName.isLock : ObjName → Bool
  | .lockOf _ => true
  | .recordOf _ => false

/-- True exactly on record objects INSTANCE_OCID.json whose instance
OCID starts with ocid1.instance: these are the objects the list-all
operation enumerates. -/
def ObjName.isInstanceRecord : ObjName → Bool
  | .recordOf id => "ocid1.instance".data.isPrefixOf id.data
  | .lockOf _ => false

/-- The instance OCID carried by a record object name; on the string
level this is object.name with the trailing five characters .json
removed, as computed in list_snapshots_for_all_instances. -/
def ObjName.recordId : ObjName → String
  | .recordOf id => id
  | .lockOf id => id

/-- The bucket: a finite map from object names to stored contents,
represented as an association list with unique names. -/
abbrev Bucket := List (ObjName × ObjVal)

/-- get_object: the content stored under a name, if the object exists. -/
def bucketFind : Bucket → ObjName → Option ObjVal
  | [], _ => none
  | (m, v) :: t, n => if m = n then some v else bucketFind t n

/-- put_object: store content under a name, overwriting an existing
object of that name. -/
def bucketPut : Bucket → ObjName → ObjVal → Bucket
  | [], n, v => [(n, v)]
  | (m, w) :: t, n, v => if m = n then (n, v) :: t else (m, w) :: bucketPut t n v

/-- delete_object: remove the object of the given name. -/
def bucketErase : Bucket → ObjName → Bucket
  | [], _ => []
  | (m, v) :: t, n => if m = n then bucketErase t n else (m, v) :: bucketErase t n

/-- The boot_volume field of a snapshot entry. -/
structure BootVolume where
  name : String
  cloned_id : String
  deriving DecidableEq

/-- One entry of the block_volumes list of a snapshot. -/
structure BlockVolume where
  name : String
  cloned_id : String
  device : String
  attachment_type : String
  display_name : String
  is_read_only : Bool
  is_shareable : Bool
  deriving DecidableEq

/-- One snapshot entry of the snapshots list, exactly the dictionary
assembled in create_snapshot_multi. -/
structure Snapshot where
  name : String
  description : String
  date_time : String
  boot_volume : BootVolume
  block_volumes : List BlockVolume
  deriving DecidableEq

/-- The per-instance snapshot record, the JSON document stored at
INSTANCE_OCID.json. -/
structure SnapshotRecord where
  instance_id : String
  snapshots : List Snapshot
  deriving DecidableEq

def BootVolume.toJson (bv : BootVolume) : Json :=
  .obj [("name", .str bv.name), ("cloned_id", .str bv.cloned_id)]

def BlockVolume.toJson (bv : BlockVolume) : Json :=
  .obj [("name", .str bv.name), ("cloned_id", .str bv.cloned_id),
        ("device", .str bv.device), ("attachment_type", .str bv.attachment_type),
        ("display_name", .str bv.display_name), ("is_read_only", .jbool bv.is_read_only),
        ("is_shareable", .jbool bv.is_shareable)]

def Snapshot.toJson (s : Snapshot) : Json :=
  .obj [("name", .str s.name), ("description", .str s.description),
        ("date_time", .str s.date_time), ("boot_volume", s.boot_volume.toJson),
        ("block_volumes", .arr (s.block_volumes.map BlockVolume.toJson))]

def SnapshotRecord.toJson (r : SnapshotRecord) : Json :=
  .obj [("instance_id", .str r.instance_id),
        ("snapshots", .arr (r.snapshots.map Snapshot.toJson))]

def BootVolume.fromJson (j : Json) : Option BootVolume :=
  match j.getField "name", j.getField "cloned_id" with
  | some (.str n), some (.str c) => some ⟨n, c⟩
  | _, _ => none

def BlockVolume.fromJson (j : Json) : Option BlockVolume :=
  match j.getField "name", j.getField "cloned_id", j.getField "device",
        j.getField "attachment_type", j.getField "display_name",
        j.getField "is_read_only", j.getField "is_shareable" with
  | some (.str n), some (.str c), some (.str d), some (.str a),
    some (.str dn), some (.jbool ro), some (.jbool sh) =>
      some ⟨n, c, d, a, dn, ro, sh⟩
  | _, _, _, _, _, _, _ => none

/-- Decode a homogeneous JSON array elementwise; fails when any element
fails to decode. -/
def decodeList {α : Type} (dec : Json → Option α) : List Json → Option (List α)
  | [] => some []
  | j :: t =>
    match dec j, decodeList dec t with
    | some a, some l => some (a :: l)
    | _, _ => none

def Snapshot.fromJson (j : Json) : Option Snapshot :=
  match j.getField "name", j.getField "description", j.getField "date_time",
        j.getField "boot_volume", j.getField "block_volumes" with
  | some (.str n), some (.str d), some (.str dt), some bj, some (.arr bvs) =>
    match BootVolume.fromJson bj, decodeList BlockVolume.fromJson bvs with
    | some bv, some l => some ⟨n, d, dt, bv, l⟩
    | _, _ => none
  | _, _, _, _, _ => none

def SnapshotRecord.fromJson (j : Json) : Option SnapshotRecord :=
  match j.getField "instance_id", j.getField "snapshots" with
  | some (.str id), some (.arr snaps) =>
    match decodeList Snapshot.fromJson snaps with
    | some l => some ⟨id, l⟩
    | none => none
  | _, _ => none

/-- Details of a compute instance as returned by get_instance, restricted
to the fields the snapshot script reads for its control decisions. -/
structure Instance where
  lifecycle_state : String
  availability_domain : String
  compartment_id : String
  deriving DecidableEq

/-- Read-only model of the cloud control plane and of the success or
failure of the fallible object storage calls.  Mutating calls are
recorded in the effect trace; the environment is what every read
returns.  putOk and deleteOk are per-object success oracles for
put_object and delete_object (the script swallows or handles their
failures in various ways); vgCreateOk models whether the volume group
creation in create_snapshot_multi succeeds. -/
structure Cloud where
  instances : String → Option Instance
  publicIp : String → Option String
  ipLifetime : String → String
  ipIdOf : String → String
  putOk : ObjName → Bool
  deleteOk : ObjName → Bool
  vgCreateOk : Bool
  bootVolId : String → String
  bootVolName : String → String
  clonedBootVol : String → String
  blockVols : String → List BlockVolume
  attachedVols : String → List String
  newInstanceId : String
  now : String
  fileLines : String → Option (List String)
  profileOk : Bool
  bucketOk : Bool

/-- One successful mutating cloud call, in the order the script makes
them.  Calls that fail (per the oracles) do not change any state and
are not recorded. -/
inductive Effect where
  | putObject : ObjName → Effect
  | deleteObject : ObjName → Effect
  | createVolumeGroup : String → Effect
  | deleteVolumeGroup : String → Effect
  | updateBootVolume : String → Effect
  | updateVolume : String → Effect
  | deleteVolume : String → Effect
  | deleteBootVolume : String → Effect
  | updateInstance : String → Effect
  | terminateInstance : String → Effect
  | launchInstance : String → Effect
  | attachVolume : String → String → Effect
  | updatePublicIp : String → Effect
  deriving DecidableEq

/-- True exactly on the deletion of an advisory lock object: the only
bucket mutation the rejection paths perform (releasing the locks this
very invocation acquired). -/
def Effect.isLockRelease : Effect → Bool
  | .deleteObject (.lockOf _) => true
  | _ => false

/-- Result of running (part of) the script: the exit code if the script
exited, the final bucket, and the trace of successful mutating cloud
calls in order. -/
structure Outcome where
  exitCode : Option Nat
  bucket : Bucket
  effects : List Effect

/-- Sequence two script fragments: if the first exits, the second never
runs; otherwise the second starts from the bucket the first left and
the effect traces concatenate. -/
def Outcome.andThen (o1 : Outcome) (k : Bucket → Outcome) : Outcome :=
  match o1.exitCode with
  | some _ => o1
  | none =>
    let o2 := k o1.bucket
    ⟨o2.exitCode, o2.bucket, o1.effects ++ o2.effects⟩

/-- unlock: delete the lock object of every listed instance; deletion
failures are swallowed (the source wraps delete_object in try/except
pass), so a failed deletion leaves the lock object behind. -/
def unlock (env : Cloud) (b : Bucket) : List String → Bucket × List Effect
  | [] => (b, [])
  | id :: t =>
    let name := ObjName.lockOf id
    if env.deleteOk name then
      let r := unlock env (bucketErase b name) t
      (r.1, .deleteObject name :: r.2)
    else
      unlock env b t

/-- The put loop of lock: create lock objects one by one; on the first
failed creation, best-effort delete the lock objects already created by
this call (locked holds them) and exit with code 15. -/
def lockPuts (env : Cloud) (b : Bucket) (locked : List String) :
    List String → Outcome
  | [] => ⟨none, b, []⟩
  | id :: t =>
    let name := ObjName.lockOf id
    if env.putOk name then
      let o := lockPuts env (bucketPut b name (.text "locked")) (locked ++ [id]) t
      ⟨o.exitCode, o.bucket, .putObject name :: o.effects⟩
    else
      let r := unlock env b locked
      ⟨some 15, r.1, r.2⟩

/-- lock: list the lock objects in the bucket; if the lock object of any
instance in the batch is present, exit 14 without creating anything;
otherwise create the lock objects one by one (exiting 15 after a
best-effort cleanup if a creation fails). -/
def lock (env : Cloud) (b : Bucket) (instance_ids : List String) : Outcome :=
  let lock_present :=
    (b.filter (fun p => p.1.isLock)).any
      (fun p => instance_ids.any (fun id => decide (p.1 = ObjName.lockOf id)))
  if lock_present then ⟨some 14, b, []⟩
  else lockPuts env b [] instance_ids

/-- The empty record a missing or unreadable document stands for. -/
def emptyRecord (instance_id : String) : SnapshotRecord :=
  ⟨instance_id, []⟩

/-- load_snapshots_dict: fetch INSTANCE_OCID.json and parse it.  The
source wraps get_object and json.loads in one try/except returning the
empty record, so an absent object and malformed text both yield the
empty record.  (Text that is valid JSON but not of record shape is
returned raw by the Python code and would crash on the next field
access; the script never writes such a document and no property below
depends on that branch, which here also yields the empty record.) -/
def load_snapshots_dict (b : Bucket) (instance_id : String) : SnapshotRecord :=
  match bucketFind b (.recordOf instance_id) with
  | none => emptyRecord instance_id
  | some ov =>
    match jsonLoads ov with
    | none => emptyRecord instance_id
    | some j =>
      match SnapshotRecord.fromJson j with
      | some r => r
      | none => emptyRecord instance_id

/-- save_snapshots_dict: if the snapshots list is non-empty, serialize
the record and overwrite INSTANCE_OCID.json (a failed put prints ERROR
07, unlocks the instance and exits 7); if it is empty, delete the
object instead, swallowing a deletion failure. -/
def save_snapshots_dict (env : Cloud) (b : Bucket) (r : SnapshotRecord)
    (instance_id : String) : Outcome :=
  let object_name := ObjName.recordOf instance_id
  if r.snapshots.length > 0 then
    if env.putOk object_name then
      ⟨none, bucketPut b object_name (.jsonOf r.toJson), [.putObject object_name]⟩
    else
      let u := unlock env b [instance_id]
      ⟨some 7, u.1, u.2⟩
  else
    if env.deleteOk object_name then
      ⟨none, bucketErase b object_name, [.deleteObject object_name]⟩
    else
      ⟨none, b, []⟩

/-- delete_snapshots_dict: unconditionally delete INSTANCE_OCID.json; a
failure only prints a warning. -/
def delete_snapshots_dict (env : Cloud) (b : Bucket) (instance_id : String) :
    Bucket × List Effect :=
  let name := ObjName.recordOf instance_id
  if env.deleteOk name then (bucketErase b name, [.deleteObject name])
  else (b, [])

/-- get_instance_details with stop=False: the instance details when the
instance exists and is not in TERMINATED or TERMINATING state, and
nothing otherwise. -/
def instance_details (env : Cloud) (instance_id : String) : Option Instance :=
  match env.instances instance_id with
  | none => none
  | some inst =>
    if ["TERMINATED", "TERMINATING"].contains inst.lifecycle_state then none
    else some inst

/-- get_instance_details with stop=True: unlock the instance and exit 9
when the instance is not found, exit 8 when it is in TERMINATED or
TERMINATING state, and return its details otherwise. -/
def get_instance_details (env : Cloud) (b : Bucket) (instance_id : String) :
    Outcome ⊕ Instance :=
  match env.instances instance_id with
  | none =>
    let u := unlock env b [instance_id]
    Sum.inl ⟨some 9, u.1, u.2⟩
  | some inst =>
    if ["TERMINATED", "TERMINATING"].contains inst.lifecycle_state then
      let u := unlock env b [instance_id]
      Sum.inl ⟨some 8, u.1, u.2⟩
    else Sum.inr inst

/-- The linear scan of the snapshots list for an entry of the given
name: the first match, exactly as the for loop of
stop_if_snapsnot_does_not_exist finds it. -/
def findSnapshot (snaps : List Snapshot) (snapshot_name : String) :
    Option Snapshot :=
  snaps.find? (fun s => s.name == snapshot_name)

/-- stop_if_snapsnot_does_not_exist (name kept from the source): the
matching snapshot entry, or unlock the instance and exit 3 when no
snapshot of that name exists. -/
def stop_if_snapsnot_does_not_exist (env : Cloud) (b : Bucket)
    (snap_dict : SnapshotRecord) (snapshot_name instance_id : String) :
    Outcome ⊕ Snapshot :=
  match findSnapshot snap_dict.snapshots snapshot_name with
  | some snap => Sum.inr snap
  | none =>
    let u := unlock env b [instance_id]
    Sum.inl ⟨some 3, u.1, u.2⟩

/-- stop_if_ephemeral_public_ip: nothing to check without a public IP;
with one, look up its lifetime and unlock all instances and exit 6 when
it is EPHEMERAL, otherwise return the public IP OCID. -/
def stop_if_ephemeral_public_ip (env : Cloud) (b : Bucket)
    (public_ip_address : Option String) (instance_ids : List String) :
    Outcome ⊕ Option String :=
  match public_ip_address with
  | none => Sum.inr none
  | some ip =>
    if env.ipLifetime ip = "EPHEMERAL" then
      let u := unlock env b instance_ids
      Sum.inl ⟨some 6, u.1, u.2⟩
    else Sum.inr (some (env.ipIdOf ip))

/-- Whether the primary VNIC of the instance carries an ephemeral public
IP (the condition the per-instance loop of create_snapshot_multi tests
through get_primary_vnic and stop_if_ephemeral_public_ip). -/
def hasEphemeralIp (env : Cloud) (instance_id : String) : Bool :=
  match env.publicIp instance_id with
  | none => false
  | some ip => env.ipLifetime ip == "EPHEMERAL"

/-- The characters accepted in a snapshot name, as listed in
check_snapshot_name_syntax. -/
def allowedCharacters : String :=
  "0123456789ABCDEFGHIJKLMNOPQRSTUVWXYZabcdefghijklmnopqrstuvwxyz_-"

/-- check_snapshot_name_syntax: true when every character of the name is
in allowedCharacters and the length is between 5 and 30; the caller
exits 4 when this is false. -/
def check_snapshot_name_syntax (snapshot_name : String) : Bool :=
  let validCharacters :=
    snapshot_name.data.all (fun c => allowedCharacters.data.contains c)
  let validSize := snapshot_name.length ≥ 5 && snapshot_name.length ≤ 30
  validCharacters && validSize

/-- The del-inside-for-with-break pattern used by delete_snapshot and
rollback_snapshot: remove the first entry of the given name. -/
def removeFirstByName : List Snapshot → String → List Snapshot
  | [], _ => []
  | s :: t, n => if s.name = n then t else s :: removeFirstByName t n

/-- In-place rename through the alias returned by the first-match scan:
the first entry of the old name gets the new name. -/
def renameFirstByName : List Snapshot → String → String → List Snapshot
  | [], _, _ => []
  | s :: t, old, new =>
    if s.name = old then { s with name := new } :: t
    else s :: renameFirstByName t old new

/-- In-place description change through the alias returned by the
first-match scan. -/
def setDescFirstByName : List Snapshot → String → String → List Snapshot
  | [], _, _ => []
  | s :: t, n, d =>
    if s.name = n then { s with description := d } :: t
    else s :: setDescFirstByName t n d

/-- The per-instance details loop of create_snapshot_multi: all details,
or nothing as soon as one instance is absent or terminated. -/
def getInstances (env : Cloud) (instance_ids : List String) :
    Option (List Instance) :=
  instance_ids.mapM (fun id => instance_details env id)

/-- The availability domain and compartment check of
create_snapshot_multi against the first instance: the exit code of the
first violation (18 for a different availability domain, 19 for a
different compartment, checked in that order per instance), if any. -/
def checkSameAdCpt (first : Instance) : List Instance → Option Nat
  | [] => none
  | i :: t =>
    if i.availability_domain ≠ first.availability_domain then some 18
    else if i.compartment_id ≠ first.compartment_id then some 19
    else checkSameAdCpt first t

/-- The snapshot entry create_snapshot_multi appends for one instance:
name, description, creation timestamp, the source boot volume name with
its cloned id, and one entry per attached block volume. -/
def newSnapEntry (env : Cloud) (instance_id snapshot_name description : String) :
    Snapshot :=
  { name := snapshot_name
    description := description
    date_time := env.now
    boot_volume := { name := env.bootVolName (env.bootVolId instance_id)
                     cloned_id := env.clonedBootVol instance_id }
    block_volumes := env.blockVols instance_id }

/-- The final loop of create_snapshot_multi: save the updated record of
each instance in turn; a failed put makes save_snapshots_dict exit 7 and
the remaining saves never run. -/
def seqSaves (env : Cloud) (b : Bucket) :
    List (String × SnapshotRecord) → Outcome
  | [] => ⟨none, b, []⟩
  | (id, r) :: t =>
    (save_snapshots_dict env b r id).andThen (fun b2 => seqSaves env b2 t)

/-- create_snapshot_multi.  In source order: load the records, get every
instance (exit 17 when one is absent or terminated), check one
availability domain and compartment (exit 18/19), reject a name already
present in any of the records (ERROR 01, exit 1), reject an ephemeral
public IP (exit 6), create and clone the temporary volume group (exit
16 when creation fails), rename and tag the cloned volumes, delete the
two volume groups, tag the instances, and append and save the new
snapshot entry of every instance.  Every rejection unlocks the whole
batch first.  The per-volume bookkeeping that matches cloned volumes to
their sources is resolved by control plane reads and is supplied by the
environment (clonedBootVol, blockVols). -/
def create_snapshot_multi (env : Cloud) (b : Bucket)
    (instance_ids : List String) (snapshot_name description : String) :
    Outcome :=
  match getInstances env instance_ids with
  | none =>
    let u := unlock env b instance_ids
    ⟨some 17, u.1, u.2⟩
  | some [] => ⟨none, b, []⟩
  | some (first :: rest) =>
    match checkSameAdCpt first (first :: rest) with
    | some code =>
      let u := unlock env b instance_ids
      ⟨some code, u.1, u.2⟩
    | none =>
      if (instance_ids.map (fun id => load_snapshots_dict b id)).any
          (fun r => r.snapshots.any (fun s => s.name == snapshot_name)) then
        let u := unlock env b instance_ids
        ⟨some 1, u.1, u.2⟩
      else if instance_ids.any (fun id => hasEphemeralIp env id) then
        let u := unlock env b instance_ids
        ⟨some 6, u.1, u.2⟩
      else if env.vgCreateOk = false then
        let u := unlock env b instance_ids
        ⟨some 16, u.1, u.2⟩
      else
        let cloneEffects : List Effect :=
          [.createVolumeGroup ("snapshot_" ++ snapshot_name ++ "_tempo_source"),
           .createVolumeGroup ("snapshot_" ++ snapshot_name ++ "_tempo_cloned")]
          ++ instance_ids.map (fun id => Effect.updateBootVolume (env.clonedBootVol id))
          ++ (instance_ids.map (fun id =>
                (env.blockVols id).map (fun bv => Effect.updateVolume bv.cloned_id))).flatten
          ++ [.deleteVolumeGroup ("snapshot_" ++ snapshot_name ++ "_tempo_source"),
              .deleteVolumeGroup ("snapshot_" ++ snapshot_name ++ "_tempo_cloned")]
          ++ instance_ids.map (fun id => Effect.updateInstance id)
        let o := seqSaves env b (instance_ids.map (fun id =>
          (id, let r := load_snapshots_dict b id
               { r with snapshots :=
                   r.snapshots ++ [newSnapEntry env id snapshot_name description] })))
        ⟨o.exitCode, o.bucket, cloneEffects ++ o.effects⟩

/-- create_snapshot: the single-instance wrapper. -/
def create_snapshot (env : Cloud) (b : Bucket)
    (instance_id snapshot_name description : String) : Outcome :=
  create_snapshot_multi env b [instance_id] snapshot_name description

/-- The final record update of rollback_snapshot: remove the first entry
of the rolled-back snapshot name from the record, save the remaining
record under the id of the newly launched instance (save deletes the
object instead when the list became empty), and delete the record
object of the terminated instance; mutations holds the cloud calls the
rollback performed before this update. -/
def rollback_update_store (env : Cloud) (b : Bucket)
    (instance_id new_instance_id : String) (snap_dict : SnapshotRecord)
    (snapshot_name : String) (mutations : List Effect) : Outcome :=
  let snaps2 := removeFirstByName snap_dict.snapshots snapshot_name
  let o1 := save_snapshots_dict env b
    { snap_dict with snapshots := snaps2 } new_instance_id
  match o1.exitCode with
  | some c => ⟨some c, o1.bucket, mutations ++ o1.effects⟩
  | none =>
    let d := delete_snapshots_dict env o1.bucket instance_id
    ⟨none, d.1, mutations ++ o1.effects ++ d.2⟩

/-- rollback_snapshot.  In source order: get the instance (exit 9/8),
load the record, find the snapshot (exit 3), get the primary VNIC and
refuse an ephemeral public IP (exit 6) before any mutation; then
terminate the instance, rename the cloned boot volume, launch the new
instance from it, attach and rename the cloned block volumes, delete
the previously attached block volumes, strip the snapshot tags, point
the reserved public IP at the new instance when one was present, remove
the snapshot entry from the record, save the record under the new
instance id (deleting it when it became empty), and delete the record
object of the old instance id. -/
def rollback_snapshot (env : Cloud) (b : Bucket)
    (instance_id snapshot_name : String) : Outcome :=
  match get_instance_details env b instance_id with
  | .inl o => o
  | .inr _ =>
    let snap_dict := load_snapshots_dict b instance_id
    match stop_if_snapsnot_does_not_exist env b snap_dict snapshot_name instance_id with
    | .inl o => o
    | .inr snap =>
      let public_ip := env.publicIp instance_id
      match stop_if_ephemeral_public_ip env b public_ip [instance_id] with
      | .inl o => o
      | .inr public_ip_id =>
        let blkvol_attachments := env.attachedVols instance_id
        let new_instance_id := env.newInstanceId
        let mutations : List Effect :=
          [.terminateInstance instance_id,
           .updateBootVolume snap.boot_volume.cloned_id,
           .launchInstance new_instance_id]
          ++ (snap.block_volumes.map (fun bv =>
                [Effect.attachVolume bv.cloned_id new_instance_id,
                 Effect.updateVolume bv.cloned_id])).flatten
          ++ blkvol_attachments.map (fun vid => Effect.deleteVolume vid)
          ++ [.updateBootVolume snap.boot_volume.cloned_id]
          ++ snap.block_volumes.map (fun bv => Effect.updateVolume bv.cloned_id)
          ++ (match public_ip, public_ip_id with
              | some _, some ipid => [Effect.updatePublicIp ipid]
              | _, _ => [])
        rollback_update_store env b instance_id new_instance_id snap_dict
          snapshot_name mutations

/-- delete_snapshot: load the record, get the instance (exit 9/8), find
the snapshot (exit 3), delete the cloned block and boot volumes, remove
the snapshot tag from the instance, remove the entry from the record
and save it (deleting the object when the list became empty). -/
def delete_snapshot (env : Cloud) (b : Bucket)
    (instance_id snapshot_name : String) : Outcome :=
  let snap_dict := load_snapshots_dict b instance_id
  match get_instance_details env b instance_id with
  | .inl o => o
  | .inr _ =>
    match stop_if_snapsnot_does_not_exist env b snap_dict snapshot_name instance_id with
    | .inl o => o
    | .inr snap =>
      let mutations : List Effect :=
        (snap.block_volumes.map (fun bv => Effect.deleteVolume bv.cloned_id))
        ++ [.deleteBootVolume snap.boot_volume.cloned_id]
        ++ [.updateInstance instance_id]
      let snaps2 := removeFirstByName snap_dict.snapshots snapshot_name
      let o := save_snapshots_dict env b
        { snap_dict with snapshots := snaps2 } instance_id
      ⟨o.exitCode, o.bucket, mutations ++ o.effects⟩

/-- delete_all_snapshots: load the record, get the instance (exit 9/8),
delete the cloned volumes of every snapshot, remove all snapshot tags
from the instance, clear the snapshots list and save (which deletes the
record object). -/
def delete_all_snapshots (env : Cloud) (b : Bucket) (instance_id : String) :
    Outcome :=
  let snap_dict := load_snapshots_dict b instance_id
  match get_instance_details env b instance_id with
  | .inl o => o
  | .inr _ =>
    let mutations : List Effect :=
      (snap_dict.snapshots.map (fun s =>
        (s.block_volumes.map (fun bv => Effect.deleteVolume bv.cloned_id))
        ++ [Effect.deleteBootVolume s.boot_volume.cloned_id])).flatten
      ++ [.updateInstance instance_id]
    let o := save_snapshots_dict env b
      { snap_dict with snapshots := [] } instance_id
    ⟨o.exitCode, o.bucket, mutations ++ o.effects⟩

/-- rename_snapshot: load the record; if the new name is already present
(ERROR 01) unlock and exit 1; find the old snapshot (exit 3), get the
instance (exit 9/8), rename the entry, migrate the tag of the instance
and of the cloned boot and block volumes, and save the record. -/
def rename_snapshot (env : Cloud) (b : Bucket)
    (instance_id snapshot_old_name snapshot_new_name : String) : Outcome :=
  let snap_dict := load_snapshots_dict b instance_id
  if snap_dict.snapshots.any (fun s => s.name == snapshot_new_name) then
    let u := unlock env b [instance_id]
    ⟨some 1, u.1, u.2⟩
  else
    match stop_if_snapsnot_does_not_exist env b snap_dict snapshot_old_name instance_id with
    | .inl o => o
    | .inr snap =>
      match get_instance_details env b instance_id with
      | .inl o => o
      | .inr _ =>
        let mutations : List Effect :=
          [.updateInstance instance_id,
           .updateBootVolume snap.boot_volume.cloned_id,
           .updateBootVolume snap.boot_volume.cloned_id]
          ++ (snap.block_volumes.map (fun bv =>
                [Effect.updateVolume bv.cloned_id,
                 Effect.updateVolume bv.cloned_id])).flatten
        let snaps2 :=
          renameFirstByName snap_dict.snapshots snapshot_old_name snapshot_new_name
        let o := save_snapshots_dict env b
          { snap_dict with snapshots := snaps2 } instance_id
        ⟨o.exitCode, o.bucket, mutations ++ o.effects⟩

/-- change_snapshot_decription (name kept from the source): load the
record, find the snapshot (exit 3), change its description and save. -/
def change_snapshot_decription (env : Cloud) (b : Bucket)
    (instance_id snapshot_name new_desc : String) : Outcome :=
  let snap_dict := load_snapshots_dict b instance_id
  match stop_if_snapsnot_does_not_exist env b snap_dict snapshot_name instance_id with
  | .inl o => o
  | .inr _ =>
    let snaps2 := setDescFirstByName snap_dict.snapshots snapshot_name new_desc
    let o := save_snapshots_dict env b
      { snap_dict with snapshots := snaps2 } instance_id
    ⟨o.exitCode, o.bucket, o.effects⟩

/-- list_snapshots: get the instance (exit 9/8), load the record and
print it; no object and no cloud resource is written. -/
def list_snapshots (env : Cloud) (b : Bucket) (instance_id : String) :
    Outcome :=
  match get_instance_details env b instance_id with
  | .inl o => o
  | .inr _ => ⟨none, b, []⟩

/-- The per-object loop of list_snapshots_for_all_instances over the
listing taken at the start: for each record object, when the instance no
longer exists or is terminating, delete the object (a failure is
swallowed); otherwise load the record and print it. -/
def listAllStep (env : Cloud) (b : Bucket) : List String → Bucket × List Effect
  | [] => (b, [])
  | id :: t =>
    match instance_details env id with
    | none =>
      let name := ObjName.recordOf id
      if env.deleteOk name then
        let r := listAllStep env (bucketErase b name) t
        (r.1, .deleteObject name :: r.2)
      else listAllStep env b t
    | some _ => listAllStep env b t

/-- list_snapshots_for_all_instances: list the objects whose name starts
with ocid1.instance (the record objects), then run the per-object loop;
the instance OCID of an object is its name with the trailing .json
removed. -/
def list_snapshots_for_all_instances (env : Cloud) (b : Bucket) : Outcome :=
  let ids := (b.filter (fun p => p.1.isInstanceRecord)).map (fun p => p.1.recordId)
  let r := listAllStep env b ids
  ⟨none, r.1, r.2⟩

/-- get_instance_ids_from_file: exit 12 when the file cannot be read;
keep the lines starting with ocid1.instance; exit 13 when fewer than
two remain. -/
def get_instance_ids_from_file (env : Cloud) (filename : String) :
    Nat ⊕ List String :=
  match env.fileLines filename with
  | none => Sum.inl 12
  | some lines =>
    let instance_ids := lines.filter (fun l => "ocid1.instance".data.isPrefixOf l.data)
    if instance_ids.length < 2 then Sum.inl 13
    else Sum.inr instance_ids

/-- The mutually exclusive operations of the argument parser. -/
inductive Operation where
  | listAll : Operation
  | list : String → Operation
  | create : String → String → String → Operation
  | createMulti : String → String → String → Operation
  | rollback : String → String → Operation
  | delete : String → String → Operation
  | deleteAll : String → Operation
  | rename : String → String → String → Operation
  | changeDesc : String → String → String → Operation

/-- Lock the batch, run the operation body, and unlock: the bracket the
main block puts around every mutating operation. -/
def runWithLock (env : Cloud) (b : Bucket) (instance_ids : List String)
    (body : Bucket → Outcome) : Outcome :=
  (lock env b instance_ids).andThen (fun b1 =>
    (body b1).andThen (fun b2 =>
      let u := unlock env b2 instance_ids
      ⟨none, u.1, u.2⟩))

/-- The operation dispatch of the main block, including the
check_snapshot_name_syntax calls (exit 4 on an invalid name, before the
lock is taken and before any cloud call of the operation; rename checks
the old name and then the new name). -/
def dispatch (env : Cloud) (b : Bucket) : Operation → Outcome
  | .listAll => list_snapshots_for_all_instances env b
  | .list instance_id => list_snapshots env b instance_id
  | .create snapshot_name desc instance_id =>
    if check_snapshot_name_syntax snapshot_name then
      runWithLock env b [instance_id] (fun b1 =>
        create_snapshot env b1 instance_id snapshot_name desc)
    else ⟨some 4, b, []⟩
  | .createMulti snapshot_name desc filename =>
    if check_snapshot_name_syntax snapshot_name then
      match get_instance_ids_from_file env filename with
      | .inl code => ⟨some code, b, []⟩
      | .inr ids => runWithLock env b ids (fun b1 =>
          create_snapshot_multi env b1 ids snapshot_name desc)
    else ⟨some 4, b, []⟩
  | .rollback snapshot_name instance_id =>
    if check_snapshot_name_syntax snapshot_name then
      runWithLock env b [instance_id] (fun b1 =>
        rollback_snapshot env b1 instance_id snapshot_name)
    else ⟨some 4, b, []⟩
  | .delete snapshot_name instance_id =>
    if check_snapshot_name_syntax snapshot_name then
      runWithLock env b [instance_id] (fun b1 =>
        delete_snapshot env b1 instance_id snapshot_name)
    else ⟨some 4, b, []⟩
  | .deleteAll instance_id =>
    runWithLock env b [instance_id] (fun b1 =>
      delete_all_snapshots env b1 instance_id)
  | .rename old new instance_id =>
    if check_snapshot_name_syntax old then
      if check_snapshot_name_syntax new then
        runWithLock env b [instance_id] (fun b1 =>
          rename_snapshot env b1 instance_id old new)
      else ⟨some 4, b, []⟩
    else ⟨some 4, b, []⟩
  | .changeDesc snapshot_name new_desc instance_id =>
    if check_snapshot_name_syntax snapshot_name then
      runWithLock env b [instance_id] (fun b1 =>
        change_snapshot_decription env b1 instance_id snapshot_name new_desc)
    else ⟨some 4, b, []⟩

/-- The whole script: load the profile (exit 2 when the profile is not
found in the config file), check that the bucket exists (exit 5), then
dispatch the requested operation. -/
def runScript (env : Cloud) (b : Bucket) (op : Operation) : Outcome :=
  if env.profileOk = false then ⟨some 2, b, []⟩
  else if env.bucketOk = false then ⟨some 5, b, []⟩
  else dispatch env b op

/-- The character class [A-Za-z0-9_-] named in the error message of
check_snapshot_name_syntax, written as the four ranges and two single
characters it denotes. -/
def isAllowedChar (c : Char) : Prop :=
  ('A' ≤ c ∧ c ≤ 'Z') ∨ ('a' ≤ c ∧ c ≤ 'z') ∨ ('0' ≤ c ∧ c ≤ '9') ∨
    c = '_' ∨ c = '-'

instance (c : Char) : Decidable (isAllowedChar c) := by
  unfold isAllowedChar
  infer_instance

/-- A reference environment used by the concrete runs below: one healthy
running instance everywhere, no public IPs, all storage calls succeed. -/
def envBase : Cloud where
  instances := fun _ => some ⟨"RUNNING", "AD-1", "cpt1"⟩
  publicIp := fun _ => none
  ipLifetime := fun _ => "RESERVED"
  ipIdOf := fun ip => ip
  putOk := fun _ => true
  deleteOk := fun _ => true
  vgCreateOk := true
  bootVolId := fun id => id ++ ".bootvol"
  bootVolName := fun id => id ++ ".bootname"
  clonedBootVol := fun id => id ++ ".clonedboot"
  blockVols := fun _ => []
  attachedVols := fun _ => []
  newInstanceId := "ocid1.instance.new"
  now := "2022/03/03_12:00:00"
  fileLines := fun _ => none
  profileOk := true
  bucketOk := true

/-- A single concrete snapshot entry used by the concrete runs below. -/
def demoSnap : Snapshot :=
  { name := "snap_one"
    description := "demo"
    date_time := "2022/03/03_12:00:00"
    boot_volume := { name := "bootvol", cloned_id := "ocid1.bootvolume.c1" }
    block_volumes := [] }

/-- A second concrete snapshot entry with a different name. -/
def demoSnap2 : Snapshot :=
  { demoSnap with name := "snap_two" }

/-- An environment in which creating the lock object of instance i1
fails and deleting the lock object of instance i0 fails: the situation
in which the cleanup of a partially acquired lock batch loses a lock. -/
def envC5 : Cloud :=
  { envBase with
    putOk := fun n => decide (n ≠ ObjName.lockOf "i1")
    deleteOk := fun n => decide (n ≠ ObjName.lockOf "i0") }

/-- An environment in which creating the lock object of instance i1
fails but every deletion succeeds: the batch lock fails partway and the
cleanup works. -/
def envC5ok : Cloud :=
  { envBase with putOk := fun n => decide (n ≠ ObjName.lockOf "i1") }

/-- A bucket holding one record for one instance with one snapshot. -/
def demoBucket : Bucket :=
  [(ObjName.recordOf "ocid1.instance.a",
    ObjVal.jsonOf (SnapshotRecord.toJson ⟨"ocid1.instance.a", [demoSnap]⟩))]

/-- A bucket holding one record for one instance with two snapshots. -/
def demoBucket2 : Bucket :=
  [(ObjName.recordOf "ocid1.instance.a",
    ObjVal.jsonOf (SnapshotRecord.toJson
      ⟨"ocid1.instance.a", [demoSnap, demoSnap2]⟩))]

/-- An environment whose instances carry an ephemeral public IP. -/
def envC6 : Cloud :=
  { envBase with
    publicIp := fun _ => some "192.0.2.7"
    ipLifetime := fun _ => "EPHEMERAL" }

/-- An environment in which no instance exists any more. -/
def envC7 : Cloud :=
  { envBase with instances := fun _ => none }

end SnapMgr

namespace SnapMgr

/-! Helper lemmas about unlock, lock and the record store. -/

theorem bucketFind_put_self (b : Bucket) (n : ObjName) (v : ObjVal) :
    bucketFind (bucketPut b n v) n = some v := by
  induction b with
  | nil => simp [bucketPut, bucketFind]
  | cons p t ih =>
    obtain ⟨pn, pv⟩ := p
    by_cases h : pn = n
    · subst h
      simp [bucketPut, bucketFind]
    · simp [bucketPut, bucketFind, h, ih]

theorem bucketFind_put_ne (b : Bucket) (n m : ObjName) (v : ObjVal) (h : m ≠ n) :
    bucketFind (bucketPut b n v) m = bucketFind b m := by
  have hnm : n ≠ m := Ne.symm h
  induction b with
  | nil => simp [bucketPut, bucketFind, hnm]
  | cons p t ih =>
    obtain ⟨pn, pv⟩ := p
    by_cases h1 : pn = n
    · subst h1
      simp [bucketPut, bucketFind, hnm]
    · simp [bucketPut, bucketFind, h1, ih]

theorem bucketFind_erase_self (b : Bucket) (n : ObjName) :
    bucketFind (bucketErase b n) n = none := by
  induction b with
  | nil => simp [bucketErase, bucketFind]
  | cons p t ih =>
    obtain ⟨pn, pv⟩ := p
    by_cases h : pn = n
    · subst h
      simp [bucketErase, ih]
    · simp [bucketErase, bucketFind, h, ih]

theorem bucketFind_erase_ne (b : Bucket) (n m : ObjName) (h : m ≠ n) :
    bucketFind (bucketErase b n) m = bucketFind b m := by
  have hnm : n ≠ m := Ne.symm h
  induction b with
  | nil => rfl
  | cons p t ih =>
    obtain ⟨pn, pv⟩ := p
    by_cases h1 : pn = n
    · subst h1
      simp [bucketErase, bucketFind, hnm, ih]
    · simp [bucketErase, bucketFind, h1, ih]

theorem bootVolume_roundtrip (bv : BootVolume) :
    BootVolume.fromJson bv.toJson = some bv := rfl

theorem blockVolume_roundtrip (bv : BlockVolume) :
    BlockVolume.fromJson bv.toJson = some bv := rfl

theorem decodeList_blockVolume (l : List BlockVolume) :
    decodeList BlockVolume.fromJson (l.map BlockVolume.toJson) = some l := by
  induction l with
  | nil => rfl
  | cons h t ih => simp [decodeList, blockVolume_roundtrip, ih]

theorem snapshot_roundtrip (s : Snapshot) :
    Snapshot.fromJson s.toJson = some s := by
  have h := decodeList_blockVolume s.block_volumes
  simp [Snapshot.toJson, Snapshot.fromJson, Json.getField, jsonFieldLookup,
    bootVolume_roundtrip, h]

theorem decodeList_snapshot (l : List Snapshot) :
    decodeList Snapshot.fromJson (l.map Snapshot.toJson) = some l := by
  induction l with
  | nil => rfl
  | cons h t ih => simp [decodeList, snapshot_roundtrip, ih]

theorem snapshotRecord_roundtrip (r : SnapshotRecord) :
    SnapshotRecord.fromJson r.toJson = some r := by
  have h := decodeList_snapshot r.snapshots
  simp [SnapshotRecord.toJson, SnapshotRecord.fromJson, Json.getField,
    jsonFieldLookup, h]


theorem unlock_effects_lockRelease (env : Cloud) (ids : List String) :
    ∀ b : Bucket, ((unlock env b ids).2).all Effect.isLockRelease = true := by
  induction ids with
  | nil => intro b; rfl
  | cons id t ih =>
    intro b
    by_cases h : env.deleteOk (.lockOf id) = true
    · simp [unlock, h, Effect.isLockRelease, ih]
    · simp only [Bool.not_eq_true] at h
      simp [unlock, h, ih]

theorem unlock_find_preserved (env : Cloud) (ids : List String) :
    ∀ (b : Bucket) (n : ObjName), n.isLock = false →
      bucketFind (unlock env b ids).1 n = bucketFind b n := by
  induction ids with
  | nil => intro b n _; rfl
  | cons id t ih =>
    intro b n hn
    have hne : n ≠ ObjName.lockOf id := by
      intro hc
      rw [hc] at hn
      exact absurd hn (by simp [ObjName.isLock])
    by_cases h : env.deleteOk (.lockOf id) = true
    · simp only [unlock, h, if_true]
      rw [ih _ n hn, bucketFind_erase_ne _ _ _ hne]
    · simp only [Bool.not_eq_true] at h
      simp only [unlock, h, Bool.false_eq_true, if_false]
      exact ih _ n hn

theorem unlock_find_or (env : Cloud) (ids : List String) :
    ∀ (b : Bucket) (n : ObjName),
      bucketFind (unlock env b ids).1 n = none ∨
        bucketFind (unlock env b ids).1 n = bucketFind b n := by
  induction ids with
  | nil => intro b n; right; rfl
  | cons id t ih =>
    intro b n
    by_cases h : env.deleteOk (.lockOf id) = true
    · simp only [unlock, h, if_true]
      rcases ih (bucketErase b (.lockOf id)) n with h1 | h1
      · left; exact h1
      · by_cases hn : n = ObjName.lockOf id
        · left
          rw [h1, hn, bucketFind_erase_self]
        · right
          rw [h1, bucketFind_erase_ne _ _ _ hn]
    · simp only [Bool.not_eq_true] at h
      simp only [unlock, h, Bool.false_eq_true, if_false]
      exact ih b n

theorem unlock_find_mem (env : Cloud) (ids : List String) :
    ∀ (b : Bucket) (id : String), id ∈ ids →
      env.deleteOk (.lockOf id) = true →
      (∀ i ∈ ids, env.deleteOk (.lockOf i) = true) →
      bucketFind (unlock env b ids).1 (.lockOf id) = none := by
  induction ids with
  | nil => intro b id hmem; exact absurd hmem (List.not_mem_nil id)
  | cons j t ih =>
    intro b id hmem _ hall
    have hj : env.deleteOk (.lockOf j) = true := hall j (by simp)
    simp only [unlock, hj, if_true]
    rcases List.mem_cons.mp hmem with hid | hid
    · subst hid
      rcases unlock_find_or env t (bucketErase b (.lockOf id)) (.lockOf id) with
        h1 | h1
      · exact h1
      · rw [h1, bucketFind_erase_self]
    · exact ih _ id hid (hall id hmem)
        (fun i hi => hall i (List.mem_cons_of_mem j hi))

theorem bucketFind_ne_none_iff (b : Bucket) (n : ObjName) :
    bucketFind b n ≠ none ↔ ∃ v, (n, v) ∈ b := by
  induction b with
  | nil => simp [bucketFind]
  | cons p t ih =>
    obtain ⟨pn, pv⟩ := p
    by_cases h : pn = n
    · subst h
      simp [bucketFind]
    · have hne : ∀ v : ObjVal, ¬ (n, v) = (pn, pv) := by
        intro v hc
        exact h (congrArg Prod.fst hc).symm
      simp only [bucketFind, if_neg h, List.mem_cons]
      rw [ih]
      constructor
      · rintro ⟨v, hv⟩
        exact ⟨v, Or.inr hv⟩
      · rintro ⟨v, hv | hv⟩
        · exact absurd hv (hne v)
        · exact ⟨v, hv⟩

/-- C4: load of an absent object and load of an object whose text is not
valid JSON both return the empty record for the requested instance id,
with no exception and no exit. -/
theorem C4_load_absent_or_malformed (b : Bucket) (instance_id : String) :
    (bucketFind b (.recordOf instance_id) = none →
      load_snapshots_dict b instance_id = emptyRecord instance_id) ∧
    (∀ s : String, bucketFind b (.recordOf instance_id) = some (.text s) →
      load_snapshots_dict b instance_id = emptyRecord instance_id) := by
  constructor
  · intro h
    simp [load_snapshots_dict, h]
  · intro s h
    simp [load_snapshots_dict, h, jsonLoads]

theorem C4_witness :
    load_snapshots_dict [] "ocid1.instance.a" = emptyRecord "ocid1.instance.a" ∧
    load_snapshots_dict [(ObjName.recordOf "ocid1.instance.a", ObjVal.text "oops")]
        "ocid1.instance.a" = emptyRecord "ocid1.instance.a" :=
  ⟨(C4_load_absent_or_malformed [] "ocid1.instance.a").1 rfl,
   (C4_load_absent_or_malformed
      [(ObjName.recordOf "ocid1.instance.a", ObjVal.text "oops")]
      "ocid1.instance.a").2 "oops" rfl⟩

/-- C2: saving the record of an instance id and loading that id returns
the same record, for zero or more snapshots: a non-empty record is
serialized, stored and parsed back unchanged, and an empty record is
stored as nothing, which load reads back as the empty record of that
instance id.  The two storage calls are assumed to succeed. -/
theorem C2_save_load_roundtrip (env : Cloud) (b : Bucket)
    (r : SnapshotRecord) (instance_id : String)
    (hid : r.instance_id = instance_id)
    (hput : env.putOk (.recordOf instance_id) = true)
    (hdel : env.deleteOk (.recordOf instance_id) = true) :
    load_snapshots_dict (save_snapshots_dict env b r instance_id).bucket
      instance_id = r := by
  rcases hsn : r.snapshots with _ | ⟨s, t⟩
  · have hb : (save_snapshots_dict env b r instance_id).bucket =
        bucketErase b (.recordOf instance_id) := by
      simp [save_snapshots_dict, hsn, hdel]
    rw [hb]
    obtain ⟨ri, rs⟩ := r
    simp only at hsn hid
    simp [load_snapshots_dict, bucketFind_erase_self, emptyRecord, hid, hsn]
  · have hb : (save_snapshots_dict env b r instance_id).bucket =
        bucketPut b (.recordOf instance_id) (.jsonOf r.toJson) := by
      simp [save_snapshots_dict, hsn, hput]
    rw [hb]
    simp [load_snapshots_dict, bucketFind_put_self, jsonLoads,
      snapshotRecord_roundtrip]

theorem C2_witness :
    load_snapshots_dict
        (save_snapshots_dict envBase [] ⟨"ocid1.instance.a", [demoSnap]⟩
          "ocid1.instance.a").bucket "ocid1.instance.a" =
      ⟨"ocid1.instance.a", [demoSnap]⟩ ∧
    load_snapshots_dict
        (save_snapshots_dict envBase [] ⟨"ocid1.instance.a", []⟩
          "ocid1.instance.a").bucket "ocid1.instance.a" =
      ⟨"ocid1.instance.a", []⟩ :=
  ⟨C2_save_load_roundtrip envBase [] ⟨"ocid1.instance.a", [demoSnap]⟩
      "ocid1.instance.a" rfl rfl rfl,
   C2_save_load_roundtrip envBase [] ⟨"ocid1.instance.a", []⟩
      "ocid1.instance.a" rfl rfl rfl⟩

/-- C3: saving a record whose snapshots list is empty deletes the
backing object instead of writing it (its only effect is that deletion
and the object is gone afterwards), and deleting the only snapshot of an
instance through delete_snapshot leaves no record object in the bucket.
The deletion call is assumed to succeed. -/
theorem C3_empty_record_deleted :
    (∀ (env : Cloud) (b : Bucket) (r : SnapshotRecord) (instance_id : String),
      r.snapshots = [] →
      env.deleteOk (.recordOf instance_id) = true →
      (save_snapshots_dict env b r instance_id).bucket =
          bucketErase b (.recordOf instance_id) ∧
      (save_snapshots_dict env b r instance_id).effects =
          [.deleteObject (.recordOf instance_id)] ∧
      bucketFind (save_snapshots_dict env b r instance_id).bucket
          (.recordOf instance_id) = none) ∧
    (∀ (env : Cloud) (b : Bucket) (instance_id snapshot_name : String)
      (s : Snapshot) (inst : Instance),
      env.instances instance_id = some inst →
      ["TERMINATED", "TERMINATING"].contains inst.lifecycle_state = false →
      (load_snapshots_dict b instance_id).snapshots = [s] →
      s.name = snapshot_name →
      env.deleteOk (.recordOf instance_id) = true →
      (delete_snapshot env b instance_id snapshot_name).exitCode = none ∧
      bucketFind (delete_snapshot env b instance_id snapshot_name).bucket
          (.recordOf instance_id) = none) := by
  constructor
  · intro env b r instance_id hemp hdel
    refine ⟨?_, ?_, ?_⟩
    · simp [save_snapshots_dict, hemp, hdel]
    · simp [save_snapshots_dict, hemp, hdel]
    · simp [save_snapshots_dict, hemp, hdel, bucketFind_erase_self]
  · intro env b instance_id snapshot_name s inst hinst hstate hload hname hdel
    have hfind : findSnapshot (load_snapshots_dict b instance_id).snapshots
        snapshot_name = some s := by
      simp [findSnapshot, hload, hname]
    have hrm : removeFirstByName (load_snapshots_dict b instance_id).snapshots
        snapshot_name = [] := by
      simp [removeFirstByName, hload, hname]
    simp only [delete_snapshot, get_instance_details, hinst, hstate,
      Bool.false_eq_true, if_false, stop_if_snapsnot_does_not_exist, hfind,
      hrm, save_snapshots_dict, List.length_nil, gt_iff_lt, Nat.lt_irrefl,
      if_false, hdel, if_true]
    simp [bucketFind_erase_self]

theorem C3_witness :
    (save_snapshots_dict envBase
        [(ObjName.recordOf "ocid1.instance.a",
          ObjVal.jsonOf (SnapshotRecord.toJson ⟨"ocid1.instance.a", []⟩))]
        ⟨"ocid1.instance.a", []⟩ "ocid1.instance.a").effects =
      [.deleteObject (.recordOf "ocid1.instance.a")] ∧
    bucketFind
      (delete_snapshot envBase
        [(ObjName.recordOf "ocid1.instance.a",
          ObjVal.jsonOf (SnapshotRecord.toJson ⟨"ocid1.instance.a", [demoSnap]⟩))]
        "ocid1.instance.a" "snap_one").bucket
      (.recordOf "ocid1.instance.a") = none :=
  ⟨(C3_empty_record_deleted.1 envBase
      [(ObjName.recordOf "ocid1.instance.a",
        ObjVal.jsonOf (SnapshotRecord.toJson ⟨"ocid1.instance.a", []⟩))]
      ⟨"ocid1.instance.a", []⟩ "ocid1.instance.a" rfl rfl).2.1,
   (C3_empty_record_deleted.2 envBase
      [(ObjName.recordOf "ocid1.instance.a",
        ObjVal.jsonOf (SnapshotRecord.toJson ⟨"ocid1.instance.a", [demoSnap]⟩))]
      "ocid1.instance.a" "snap_one" demoSnap ⟨"RUNNING", "AD-1", "cpt1"⟩
      rfl rfl (by rw [show load_snapshots_dict
          [(ObjName.recordOf "ocid1.instance.a",
            ObjVal.jsonOf (SnapshotRecord.toJson ⟨"ocid1.instance.a", [demoSnap]⟩))]
          "ocid1.instance.a" = ⟨"ocid1.instance.a", [demoSnap]⟩ from by
            simp [load_snapshots_dict, bucketFind, jsonLoads,
              snapshotRecord_roundtrip]]) rfl rfl).2⟩

theorem lock_present_iff (b : Bucket) (ids : List String) :
    ((b.filter (fun p => p.1.isLock)).any
      (fun p => ids.any (fun id => decide (p.1 = ObjName.lockOf id))) = true) ↔
    ∃ id ∈ ids, bucketFind b (.lockOf id) ≠ none := by
  simp only [List.any_eq_true, List.mem_filter, decide_eq_true_eq]
  constructor
  · rintro ⟨p, ⟨hmem, _⟩, id, hid, hp⟩
    refine ⟨id, hid, (bucketFind_ne_none_iff b (.lockOf id)).mpr ⟨p.2, ?_⟩⟩
    rw [← hp]
    exact hmem
  · rintro ⟨id, hid, hne⟩
    obtain ⟨v, hv⟩ := (bucketFind_ne_none_iff b (.lockOf id)).mp hne
    exact ⟨(ObjName.lockOf id, v), ⟨hv, rfl⟩, id, hid, rfl⟩

theorem lockPuts_exit15_find (env : Cloud) :
    ∀ (rest : List String) (b : Bucket) (locked : List String),
      (∀ i ∈ locked, env.deleteOk (.lockOf i) = true) →
      (∀ i ∈ rest, env.deleteOk (.lockOf i) = true) →
      (lockPuts env b locked rest).exitCode = some 15 →
      ∀ n : ObjName,
        ((∃ i ∈ locked, n = ObjName.lockOf i) →
          bucketFind (lockPuts env b locked rest).bucket n = none) ∧
        (bucketFind (lockPuts env b locked rest).bucket n = none ∨
          bucketFind (lockPuts env b locked rest).bucket n = bucketFind b n) := by
  intro rest
  induction rest with
  | nil =>
    intro b locked _ _ hexit
    exact absurd hexit (by simp [lockPuts])
  | cons id t ih =>
    intro b locked hlocked hrest hexit n
    by_cases hput : env.putOk (.lockOf id) = true
    · simp only [lockPuts, hput, if_true] at hexit ⊢
      have hlocked2 : ∀ i ∈ locked ++ [id], env.deleteOk (.lockOf i) = true := by
        intro i hi
        rcases List.mem_append.mp hi with hi | hi
        · exact hlocked i hi
        · rw [List.mem_singleton.mp hi]
          exact hrest id (by simp)
      have hrest2 : ∀ i ∈ t, env.deleteOk (.lockOf i) = true :=
        fun i hi => hrest i (List.mem_cons_of_mem id hi)
      have IH := ih (bucketPut b (.lockOf id) (.text "locked"))
        (locked ++ [id]) hlocked2 hrest2 hexit n
      constructor
      · intro hmem
        obtain ⟨i, hi, hni⟩ := hmem
        exact IH.1 ⟨i, List.mem_append_left [id] hi, hni⟩
      · by_cases hn : n = ObjName.lockOf id
        · left
          exact IH.1 ⟨id, List.mem_append_right locked (by simp), hn⟩
        · rcases IH.2 with h1 | h1
          · left; exact h1
          · right
            rw [h1, bucketFind_put_ne _ _ _ _ hn]
    · simp only [Bool.not_eq_true] at hput
      simp only [lockPuts, hput, Bool.false_eq_true, if_false]
      constructor
      · rintro ⟨i, hi, hni⟩
        subst hni
        exact unlock_find_mem env locked b i hi (hlocked i hi) hlocked
      · exact unlock_find_or env locked b n

/-- C5 counterexample: with two instances i0 and i1, an initially empty
bucket, a put_object that fails on the lock object of i1 and a
delete_object that fails on the lock object of i0, the lock operation
fails partway (exit 15) and the lock object it created for i0 survives
the swallowed cleanup failure: a new lock object remains behind for an
id in the batch. -/
theorem C5_counterexample :
    (lock envC5 [] ["i0", "i1"]).exitCode = some 15 ∧
    bucketFind (lock envC5 [] ["i0", "i1"]).bucket (.lockOf "i0") =
      some (.text "locked") := by
  constructor <;> rfl

/-- C5 amended: if any id of the batch is already locked, lock exits 14
with the bucket unchanged and no effect performed; and when a lock
creation fails partway (exit 15), no new lock object remains for any id
of the batch provided every cleanup deletion succeeds — the cleanup is
best-effort, so a failed deletion can leave a lock object behind, as the
counterexample shows. -/
theorem C5_lock_failure_atomicity (env : Cloud) (b : Bucket)
    (ids : List String) :
    ((∃ id ∈ ids, bucketFind b (.lockOf id) ≠ none) →
      lock env b ids = ⟨some 14, b, []⟩) ∧
    ((∀ id ∈ ids, env.deleteOk (.lockOf id) = true) →
      (∀ id ∈ ids, bucketFind b (.lockOf id) = none) →
      (lock env b ids).exitCode = some 15 →
      ∀ id ∈ ids, bucketFind (lock env b ids).bucket (.lockOf id) = none) := by
  constructor
  · intro h
    have hc := (lock_present_iff b ids).mpr h
    simp [lock, hc]
  · intro hdel hnolock hexit id hid
    by_cases hc : ((b.filter (fun p => p.1.isLock)).any
        (fun p => ids.any (fun i => decide (p.1 = ObjName.lockOf i))) = true)
    · obtain ⟨i, hi, hne⟩ := (lock_present_iff b ids).mp hc
      exact absurd (hnolock i hi) hne
    · simp only [Bool.not_eq_true] at hc
      simp only [lock, hc, Bool.false_eq_true, if_false] at hexit ⊢
      have H := lockPuts_exit15_find env ids b [] (by simp) hdel hexit
        (.lockOf id)
      rcases H.2 with h1 | h1
      · exact h1
      · rw [h1]
        exact hnolock id hid

theorem C5_witness :
    lock envBase [(ObjName.lockOf "i0", ObjVal.text "locked")] ["i0"] =
      ⟨some 14, [(ObjName.lockOf "i0", ObjVal.text "locked")], []⟩ ∧
    bucketFind (lock envC5ok [] ["i0", "i1"]).bucket (.lockOf "i0") = none :=
  ⟨(C5_lock_failure_atomicity envBase
      [(ObjName.lockOf "i0", ObjVal.text "locked")] ["i0"]).1
      ⟨"i0", by simp, by simp [bucketFind]⟩,
   (C5_lock_failure_atomicity envC5ok [] ["i0", "i1"]).2
      (by decide) (fun id _ => rfl) rfl "i0" (by simp)⟩

/-- C1: snapshot name uniqueness is enforced before mutation.  If every
instance of the batch exists in one availability domain and compartment
and the requested name is already present in the record of one of them,
create_snapshot_multi exits 1, its only effects are the release of the
advisory locks of this invocation, and no non-lock bucket object
changes; and if the new name is already present in the record,
rename_snapshot exits 1 with the same absence of side effects. -/
theorem C1_name_collision_rejected :
    (∀ (env : Cloud) (b : Bucket) (ids : List String) (name desc : String)
      (first : Instance) (rest : List Instance),
      getInstances env ids = some (first :: rest) →
      checkSameAdCpt first (first :: rest) = none →
      (∃ id ∈ ids, (load_snapshots_dict b id).snapshots.any
          (fun s => s.name == name) = true) →
      (create_snapshot_multi env b ids name desc).exitCode = some 1 ∧
      (create_snapshot_multi env b ids name desc).effects.all
          Effect.isLockRelease = true ∧
      (∀ n : ObjName, n.isLock = false →
        bucketFind (create_snapshot_multi env b ids name desc).bucket n =
          bucketFind b n)) ∧
    (∀ (env : Cloud) (b : Bucket) (instance_id old new : String),
      (load_snapshots_dict b instance_id).snapshots.any
          (fun s => s.name == new) = true →
      (rename_snapshot env b instance_id old new).exitCode = some 1 ∧
      (rename_snapshot env b instance_id old new).effects.all
          Effect.isLockRelease = true ∧
      (∀ n : ObjName, n.isLock = false →
        bucketFind (rename_snapshot env b instance_id old new).bucket n =
          bucketFind b n)) := by
  constructor
  · intro env b ids name desc first rest h1 h2 h3
    have hcol : (ids.map (fun id => load_snapshots_dict b id)).any
        (fun r => r.snapshots.any (fun s => s.name == name)) = true := by
      simp only [List.any_eq_true, List.mem_map]
      obtain ⟨id, hid, h⟩ := h3
      rw [List.any_eq_true] at h
      exact ⟨load_snapshots_dict b id, ⟨id, hid, rfl⟩, h⟩
    have hout : create_snapshot_multi env b ids name desc =
        ⟨some 1, (unlock env b ids).1, (unlock env b ids).2⟩ := by
      simp only [create_snapshot_multi, h1, h2, hcol, if_true]
    rw [hout]
    exact ⟨rfl, unlock_effects_lockRelease env ids b,
      fun n hn => unlock_find_preserved env ids b n hn⟩
  · intro env b instance_id old new h
    have hout : rename_snapshot env b instance_id old new =
        ⟨some 1, (unlock env b [instance_id]).1, (unlock env b [instance_id]).2⟩ := by
      simp only [rename_snapshot, h, if_true]
    rw [hout]
    exact ⟨rfl, unlock_effects_lockRelease env [instance_id] b,
      fun n hn => unlock_find_preserved env [instance_id] b n hn⟩

theorem C1_witness :
    (create_snapshot_multi envBase demoBucket ["ocid1.instance.a"]
      "snap_one" "again").exitCode = some 1 ∧
    (rename_snapshot envBase demoBucket "ocid1.instance.a"
      "snap_two" "snap_one").exitCode = some 1 :=
  ⟨(C1_name_collision_rejected.1 envBase demoBucket ["ocid1.instance.a"]
      "snap_one" "again" ⟨"RUNNING", "AD-1", "cpt1"⟩ [] rfl rfl
      ⟨"ocid1.instance.a", by simp, by decide⟩).1,
   (C1_name_collision_rejected.2 envBase demoBucket "ocid1.instance.a"
      "snap_two" "snap_one" (by decide)).1⟩

/-- C6: rollback refuses an instance with an ephemeral public IP: when
the instance exists, the snapshot exists and the primary VNIC has a
public IP of EPHEMERAL lifetime, rollback exits 6 before terminating the
instance or performing any other mutation — its only effects are the
release of the advisory locks, the instance is never terminated, and no
non-lock bucket object changes. -/
theorem C6_rollback_refuses_ephemeral (env : Cloud) (b : Bucket)
    (instance_id snapshot_name ip : String) (inst : Instance) (snap : Snapshot)
    (hinst : env.instances instance_id = some inst)
    (hstate : ["TERMINATED", "TERMINATING"].contains inst.lifecycle_state = false)
    (hfind : findSnapshot (load_snapshots_dict b instance_id).snapshots
        snapshot_name = some snap)
    (hip : env.publicIp instance_id = some ip)
    (heph : env.ipLifetime ip = "EPHEMERAL") :
    (rollback_snapshot env b instance_id snapshot_name).exitCode = some 6 ∧
    (rollback_snapshot env b instance_id snapshot_name).effects.all
        Effect.isLockRelease = true ∧
    Effect.terminateInstance instance_id ∉
        (rollback_snapshot env b instance_id snapshot_name).effects ∧
    (∀ n : ObjName, n.isLock = false →
      bucketFind (rollback_snapshot env b instance_id snapshot_name).bucket n =
        bucketFind b n) := by
  have hout : rollback_snapshot env b instance_id snapshot_name =
      ⟨some 6, (unlock env b [instance_id]).1, (unlock env b [instance_id]).2⟩ := by
    simp only [rollback_snapshot, get_instance_details, hinst, hstate,
      Bool.false_eq_true, if_false, stop_if_snapsnot_does_not_exist, hfind,
      hip, stop_if_ephemeral_public_ip, heph, if_true]
  rw [hout]
  refine ⟨rfl, unlock_effects_lockRelease env [instance_id] b, ?_, ?_⟩
  · intro hmem
    have hall := List.all_eq_true.mp (unlock_effects_lockRelease env [instance_id] b)
    have := hall _ hmem
    simp [Effect.isLockRelease] at this
  · exact fun n hn => unlock_find_preserved env [instance_id] b n hn

theorem C6_witness :
    (rollback_snapshot envC6 demoBucket "ocid1.instance.a" "snap_one").exitCode =
      some 6 :=
  (C6_rollback_refuses_ephemeral envC6 demoBucket "ocid1.instance.a" "snap_one"
    "192.0.2.7" ⟨"RUNNING", "AD-1", "cpt1"⟩ demoSnap rfl rfl (by decide)
    rfl rfl).1

/-- C8 counterexample: the lock state errors do not exit with codes 11
or 12.  A lock operation that finds a lock object already present exits
with code 14, and one whose lock creation fails exits with code 15; both
codes differ from 11 and 12 (which this script uses for a source-volume
lookup failure and an unreadable instance file). -/
theorem C8_counterexample :
    (lock envBase [(ObjName.lockOf "i1", ObjVal.text "locked")] ["i1"]).exitCode =
      some 14 ∧
    (lock envC5ok [] ["i0", "i1"]).exitCode = some 15 ∧
    (14 ≠ 11 ∧ 14 ≠ 12 ∧ 15 ≠ 11 ∧ 15 ≠ 12) :=
  ⟨rfl, rfl, by decide⟩

/-- C8 amended: the exit code mapping of the snapshot script is 1 on a
snapshot-name collision, 2 when the profile is not found in the config
file, 3 when the named snapshot does not exist, 8 when the instance is
in TERMINATED or TERMINATING state, 9 when the instance is not found,
and 14/15 for the lock state errors (14 when a lock object is already
present, 15 when a lock object cannot be created); codes 11 and 12 are
used for a source-volume lookup failure and an unreadable instance
file, not for lock errors. -/
theorem C8_exit_code_mapping :
    (∀ (env : Cloud) (b : Bucket) (instance_id old new : String),
      (load_snapshots_dict b instance_id).snapshots.any
          (fun s => s.name == new) = true →
      (rename_snapshot env b instance_id old new).exitCode = some 1) ∧
    (∀ (env : Cloud) (b : Bucket) (op : Operation),
      env.profileOk = false → runScript env b op = ⟨some 2, b, []⟩) ∧
    (∀ (env : Cloud) (b : Bucket) (instance_id snapshot_name : String)
      (inst : Instance),
      env.instances instance_id = some inst →
      ["TERMINATED", "TERMINATING"].contains inst.lifecycle_state = false →
      findSnapshot (load_snapshots_dict b instance_id).snapshots
          snapshot_name = none →
      (delete_snapshot env b instance_id snapshot_name).exitCode = some 3) ∧
    (∀ (env : Cloud) (b : Bucket) (instance_id : String) (inst : Instance),
      env.instances instance_id = some inst →
      ["TERMINATED", "TERMINATING"].contains inst.lifecycle_state = true →
      (list_snapshots env b instance_id).exitCode = some 8) ∧
    (∀ (env : Cloud) (b : Bucket) (instance_id : String),
      env.instances instance_id = none →
      (list_snapshots env b instance_id).exitCode = some 9) ∧
    (∀ (env : Cloud) (b : Bucket) (ids : List String),
      (∃ id ∈ ids, bucketFind b (.lockOf id) ≠ none) →
      (lock env b ids).exitCode = some 14) ∧
    (∀ (env : Cloud) (b : Bucket) (i : String),
      bucketFind b (.lockOf i) = none →
      env.putOk (.lockOf i) = false →
      (lock env b [i]).exitCode = some 15) := by
  refine ⟨?_, ?_, ?_, ?_, ?_, ?_, ?_⟩
  · intro env b instance_id old new h
    simp only [rename_snapshot, h, if_true]
  · intro env b op h
    simp [runScript, h]
  · intro env b instance_id snapshot_name inst hinst hstate hfind
    simp only [delete_snapshot, get_instance_details, hinst, hstate,
      Bool.false_eq_true, if_false, stop_if_snapsnot_does_not_exist, hfind]
  · intro env b instance_id inst hinst hstate
    simp only [list_snapshots, get_instance_details, hinst, hstate, if_true]
  · intro env b instance_id hinst
    simp only [list_snapshots, get_instance_details, hinst]
  · intro env b ids h
    have hc := (lock_present_iff b ids).mpr h
    simp [lock, hc]
  · intro env b i hfind hput
    have hc : ((b.filter (fun p => p.1.isLock)).any
        (fun p => [i].any (fun j => decide (p.1 = ObjName.lockOf j))) = true) →
        False := by
      intro hc
      obtain ⟨j, hj, hne⟩ := (lock_present_iff b [i]).mp hc
      rw [List.mem_singleton.mp hj] at hne
      exact hne hfind
    have hc2 : ((b.filter (fun p => p.1.isLock)).any
        (fun p => [i].any (fun j => decide (p.1 = ObjName.lockOf j)))) = false := by
      rcases hb : ((b.filter (fun p => p.1.isLock)).any
        (fun p => [i].any (fun j => decide (p.1 = ObjName.lockOf j)))) with _ | _
      · exact hb
      · exact absurd (hc hb) (fun x => x)
    simp only [lock, hc2, Bool.false_eq_true, if_false, lockPuts, hput,
      Bool.false_eq_true, if_false]

theorem char_eq_of_toNat_eq {c d : Char} (h : c.toNat = d.toNat) : c = d :=
  Char.ext (UInt32.ext h)

theorem allowed_char_iff (c : Char) :
    allowedCharacters.data.contains c = true ↔ isAllowedChar c := by
  constructor
  · intro h
    have hm : c ∈ allowedCharacters.data := by
      simpa [List.elem_iff] using h
    fin_cases hm <;> decide
  · intro h
    have hm : c ∈ allowedCharacters.data := by
      rcases h with ⟨h1, h2⟩ | ⟨h1, h2⟩ | ⟨h1, h2⟩ | h | h
      · have n1 : 65 ≤ c.toNat := h1
        have n2 : c.toNat ≤ 90 := h2
        obtain ⟨n, hn⟩ : ∃ n, c.toNat = n := ⟨c.toNat, rfl⟩
        rw [hn] at n1 n2
        interval_cases n
        all_goals (rw [← Char.ofNat_toNat c, hn]; decide)
      · have n1 : 97 ≤ c.toNat := h1
        have n2 : c.toNat ≤ 122 := h2
        obtain ⟨n, hn⟩ : ∃ n, c.toNat = n := ⟨c.toNat, rfl⟩
        rw [hn] at n1 n2
        interval_cases n
        all_goals (rw [← Char.ofNat_toNat c, hn]; decide)
      · have n1 : 48 ≤ c.toNat := h1
        have n2 : c.toNat ≤ 57 := h2
        obtain ⟨n, hn⟩ : ∃ n, c.toNat = n := ⟨c.toNat, rfl⟩
        rw [hn] at n1 n2
        interval_cases n
        all_goals (rw [← Char.ofNat_toNat c, hn]; decide)
      · subst h; decide
      · subst h; decide
    simpa [List.elem_iff] using hm

/-- C9: a snapshot name passes check_snapshot_name_syntax exactly when
its length is between 5 and 30 and every character is in [A-Za-z0-9_-];
and for create, create-multi, rollback, delete, change-desc and both
names of rename, an invalid name makes the dispatcher exit 4 with the
bucket unchanged and an empty effect trace — so before the instance
lock is taken and before any cloud call of the operation. -/
theorem C9_name_validation :
    (∀ name : String, check_snapshot_name_syntax name = true ↔
      (5 ≤ name.length ∧ name.length ≤ 30 ∧
        ∀ c ∈ name.data, isAllowedChar c)) ∧
    (∀ (env : Cloud) (b : Bucket) (name desc instance_id filename old : String),
      check_snapshot_name_syntax name = false →
      dispatch env b (.create name desc instance_id) = ⟨some 4, b, []⟩ ∧
      dispatch env b (.createMulti name desc filename) = ⟨some 4, b, []⟩ ∧
      dispatch env b (.rollback name instance_id) = ⟨some 4, b, []⟩ ∧
      dispatch env b (.delete name instance_id) = ⟨some 4, b, []⟩ ∧
      dispatch env b (.changeDesc name desc instance_id) = ⟨some 4, b, []⟩ ∧
      dispatch env b (.rename name desc instance_id) = ⟨some 4, b, []⟩ ∧
      ( check_snapshot_name_syntax old = true →
        dispatch env b (.rename old name instance_id) = ⟨some 4, b, []⟩)) := by
  constructor
  · intro name
    simp only [ check_snapshot_name_syntax, Bool.and_eq_true, List.all_eq_true,
      ge_iff_le, decide_eq_true_eq]
    constructor
    · rintro ⟨hc, h1, h2⟩
      exact ⟨h1, h2, fun c hmem => (allowed_char_iff c).mp (hc c hmem)⟩
    · rintro ⟨h1, h2, hc⟩
      exact ⟨fun c hmem => (allowed_char_iff c).mpr (hc c hmem), h1, h2⟩
  · intro env b name desc instance_id filename old h
    refine ⟨?_, ?_, ?_, ?_, ?_, ?_, ?_⟩
    all_goals simp only [dispatch, h, Bool.false_eq_true, if_false]
    intro hold
    simp only [hold, if_true]

theorem C9_witness :
    check_snapshot_name_syntax "snap_one" = true ∧
    dispatch envBase [] (.create "ab" "d" "ocid1.instance.a") =
      ⟨some 4, [], []⟩ ∧
    dispatch envBase [] (.rename "snap_one" "ab" "ocid1.instance.a") =
      ⟨some 4, [], []⟩ :=
  ⟨(C9_name_validation.1 "snap_one").mpr ⟨by decide, by decide, by decide⟩,
   (C9_name_validation.2 envBase [] "ab" "d" "ocid1.instance.a" "f"
      "snap_one" (by decide)).1,
   (C9_name_validation.2 envBase [] "ab" "d" "ocid1.instance.a" "f"
      "snap_one" (by decide)).2.2.2.2.2.2 (by decide)⟩

theorem C8_witness :
    (rename_snapshot envBase demoBucket "ocid1.instance.a" "snap_two"
      "snap_one").exitCode = some 1 ∧
    runScript { envBase with profileOk := false } [] Operation.listAll =
      ⟨some 2, [], []⟩ ∧
    (delete_snapshot envBase demoBucket "ocid1.instance.a"
      "does_not_appear").exitCode = some 3 ∧
    (list_snapshots { envBase with
        instances := fun _ => some ⟨"TERMINATED", "AD-1", "cpt1"⟩ }
      demoBucket "ocid1.instance.a").exitCode = some 8 ∧
    (list_snapshots envC7 demoBucket "ocid1.instance.a").exitCode = some 9 ∧
    (lock envBase [(ObjName.lockOf "i1", ObjVal.text "locked")]
      ["i1"]).exitCode = some 14 ∧
    (lock envC5ok [] ["i1"]).exitCode = some 15 :=
  ⟨C8_exit_code_mapping.1 envBase demoBucket "ocid1.instance.a" "snap_two"
      "snap_one" (by decide),
   C8_exit_code_mapping.2.1 { envBase with profileOk := false } []
      Operation.listAll rfl,
   C8_exit_code_mapping.2.2.1 envBase demoBucket "ocid1.instance.a"
      "does_not_appear" ⟨"RUNNING", "AD-1", "cpt1"⟩ rfl rfl (by decide),
   C8_exit_code_mapping.2.2.2.1 { envBase with
        instances := fun _ => some ⟨"TERMINATED", "AD-1", "cpt1"⟩ }
      demoBucket "ocid1.instance.a" ⟨"TERMINATED", "AD-1", "cpt1"⟩ rfl rfl,
   C8_exit_code_mapping.2.2.2.2.1 envC7 demoBucket "ocid1.instance.a" rfl,
   C8_exit_code_mapping.2.2.2.2.2.1 envBase
      [(ObjName.lockOf "i1", ObjVal.text "locked")] ["i1"]
      ⟨"i1", by simp, by simp [bucketFind]⟩,
   C8_exit_code_mapping.2.2.2.2.2.2 envC5ok [] "i1" rfl rfl⟩

theorem findSnapshot_eq_none_of_not_mem (l : List Snapshot) (x : String)
    (h : x ∉ l.map Snapshot.name) : findSnapshot l x = none := by
  induction l with
  | nil => rfl
  | cons s t ih =>
    simp only [List.map_cons, List.mem_cons, not_or] at h
    have hs : (s.name == x) = false := by
      simp only [beq_eq_false_iff_ne, ne_eq]
      intro hc
      exact h.1 hc.symm
    simp only [findSnapshot, List.find?, hs]
    exact ih h.2

theorem findSnapshot_removeFirst_of_nodup (l : List Snapshot) (x : String)
    (h : (l.map Snapshot.name).Nodup) :
    findSnapshot (removeFirstByName l x) x = none := by
  induction l with
  | nil => rfl
  | cons s t ih =>
    simp only [List.map_cons, List.nodup_cons] at h
    by_cases hs : s.name = x
    · simp only [removeFirstByName, hs, if_true]
      apply findSnapshot_eq_none_of_not_mem
      rw [← hs]
      exact h.1
    · simp only [removeFirstByName, hs, if_false]
      have hbs : (s.name == x) = false := by
        simp only [beq_eq_false_iff_ne, ne_eq]
        exact hs
      simp only [findSnapshot, List.find?, hbs]
      exact ih h.2

theorem rollback_update_store_eval (env : Cloud) (b : Bucket)
    (instance_id new_instance_id : String) (r : SnapshotRecord)
    (snapshot_name : String) (mutations : List Effect)
    (hput : env.putOk (.recordOf new_instance_id) = true)
    (hdn : env.deleteOk (.recordOf new_instance_id) = true)
    (hdo : env.deleteOk (.recordOf instance_id) = true) :
    (rollback_update_store env b instance_id new_instance_id r snapshot_name
        mutations).exitCode = none ∧
    (rollback_update_store env b instance_id new_instance_id r snapshot_name
        mutations).bucket =
      (if removeFirstByName r.snapshots snapshot_name = [] then
        bucketErase (bucketErase b (.recordOf new_instance_id))
          (.recordOf instance_id)
      else
        bucketErase
          (bucketPut b (.recordOf new_instance_id)
            (.jsonOf (SnapshotRecord.toJson
              ⟨r.instance_id, removeFirstByName r.snapshots snapshot_name⟩)))
          (.recordOf instance_id)) := by
  rcases hsn : removeFirstByName r.snapshots snapshot_name with _ | ⟨x, xs⟩
  · constructor <;>
      simp [rollback_update_store, hsn, save_snapshots_dict, hdn,
        delete_snapshots_dict, hdo]
  · constructor <;>
      simp [rollback_update_store, hsn, save_snapshots_dict, hput,
        delete_snapshots_dict, hdo]

/-- C10: a successful rollback consumes the snapshot it restores.  With
the instance present, the snapshot found, no ephemeral public IP, unique
snapshot names, a fresh new instance id and successful storage calls:
rollback completes (no exit code), the record object of the old instance
id is deleted, the remaining record is stored under the new instance id
exactly when it is non-empty (no object is left when the rolled-back
snapshot was the only one), and loading the new instance id afterwards
finds no snapshot of the rolled-back name, so it cannot be rolled back
to again. -/
theorem C10_rollback_consumes_snapshot (env : Cloud) (b : Bucket)
    (instance_id snapshot_name : String) (inst : Instance) (snap : Snapshot)
    (hinst : env.instances instance_id = some inst)
    (hstate : ["TERMINATED", "TERMINATING"].contains inst.lifecycle_state = false)
    (hfind : findSnapshot (load_snapshots_dict b instance_id).snapshots
        snapshot_name = some snap)
    (heph : ∃ pid, stop_if_ephemeral_public_ip env b (env.publicIp instance_id)
        [instance_id] = Sum.inr pid)
    (hnodup : ((load_snapshots_dict b instance_id).snapshots.map
        Snapshot.name).Nodup)
    (hput : env.putOk (.recordOf env.newInstanceId) = true)
    (hdn : env.deleteOk (.recordOf env.newInstanceId) = true)
    (hdo : env.deleteOk (.recordOf instance_id) = true)
    (hne : env.newInstanceId ≠ instance_id) :
    (rollback_snapshot env b instance_id snapshot_name).exitCode = none ∧
    bucketFind (rollback_snapshot env b instance_id snapshot_name).bucket
        (.recordOf instance_id) = none ∧
    (removeFirstByName (load_snapshots_dict b instance_id).snapshots
        snapshot_name ≠ [] →
      bucketFind (rollback_snapshot env b instance_id snapshot_name).bucket
          (.recordOf env.newInstanceId) =
        some (.jsonOf (SnapshotRecord.toJson
          ⟨(load_snapshots_dict b instance_id).instance_id,
           removeFirstByName (load_snapshots_dict b instance_id).snapshots
             snapshot_name⟩))) ∧
    (removeFirstByName (load_snapshots_dict b instance_id).snapshots
        snapshot_name = [] →
      bucketFind (rollback_snapshot env b instance_id snapshot_name).bucket
          (.recordOf env.newInstanceId) = none) ∧
    findSnapshot
      (load_snapshots_dict
        (rollback_snapshot env b instance_id snapshot_name).bucket
        env.newInstanceId).snapshots snapshot_name = none := by
  obtain ⟨pid, hpid⟩ := heph
  have hnames : ObjName.recordOf env.newInstanceId ≠ ObjName.recordOf instance_id := by
    intro hc
    exact hne (ObjName.recordOf.inj hc)
  obtain ⟨muts, hmuts⟩ : ∃ muts,
      rollback_snapshot env b instance_id snapshot_name =
        rollback_update_store env b instance_id env.newInstanceId
          (load_snapshots_dict b instance_id) snapshot_name muts := by
    simp only [rollback_snapshot, get_instance_details, hinst, hstate,
      Bool.false_eq_true, if_false, stop_if_snapsnot_does_not_exist, hfind,
      hpid]
    exact ⟨_, rfl⟩
  rw [hmuts]
  obtain ⟨hexit, hbucket⟩ := rollback_update_store_eval env b instance_id
    env.newInstanceId (load_snapshots_dict b instance_id) snapshot_name muts
    hput hdn hdo
  refine ⟨hexit, ?_, ?_, ?_, ?_⟩
  · rw [hbucket]
    rcases hsn : removeFirstByName (load_snapshots_dict b instance_id).snapshots
        snapshot_name with _ | ⟨x, xs⟩
    · rw [if_pos rfl, bucketFind_erase_self]
    · rw [if_neg (by simp), bucketFind_erase_self]
  · intro hne2
    rw [hbucket, if_neg hne2, bucketFind_erase_ne _ _ _ hnames,
      bucketFind_put_self]
  · intro he
    rw [hbucket, if_pos he, bucketFind_erase_ne _ _ _ hnames,
      bucketFind_erase_self]
  · rw [hbucket]
    rcases hsn : removeFirstByName (load_snapshots_dict b instance_id).snapshots
        snapshot_name with _ | ⟨x, xs⟩
    · rw [if_pos rfl]
      have hload : load_snapshots_dict
          (bucketErase (bucketErase b (.recordOf env.newInstanceId))
            (.recordOf instance_id)) env.newInstanceId =
          emptyRecord env.newInstanceId := by
        simp [load_snapshots_dict,
          bucketFind_erase_ne _ _ _ hnames, bucketFind_erase_self]
      rw [hload]
      rfl
    · rw [if_neg (by simp)]
      have hload : load_snapshots_dict
          (bucketErase
            (bucketPut b (.recordOf env.newInstanceId)
              (.jsonOf (SnapshotRecord.toJson
                ⟨(load_snapshots_dict b instance_id).instance_id, x :: xs⟩)))
            (.recordOf instance_id)) env.newInstanceId =
          ⟨(load_snapshots_dict b instance_id).instance_id, x :: xs⟩ := by
        simp [load_snapshots_dict, bucketFind_erase_ne _ _ _ hnames,
          bucketFind_put_self, jsonLoads, snapshotRecord_roundtrip]
      rw [hload]
      rw [← hsn]
      exact findSnapshot_removeFirst_of_nodup _ snapshot_name hnodup

theorem C10_witness :
    (rollback_snapshot envBase demoBucket2 "ocid1.instance.a"
        "snap_one").exitCode = none ∧
    bucketFind (rollback_snapshot envBase demoBucket2 "ocid1.instance.a"
        "snap_one").bucket (.recordOf "ocid1.instance.a") = none ∧
    bucketFind (rollback_snapshot envBase demoBucket2 "ocid1.instance.a"
        "snap_one").bucket (.recordOf "ocid1.instance.new") =
      some (.jsonOf (SnapshotRecord.toJson ⟨"ocid1.instance.a", [demoSnap2]⟩)) ∧
    findSnapshot (load_snapshots_dict
        (rollback_snapshot envBase demoBucket2 "ocid1.instance.a"
          "snap_one").bucket "ocid1.instance.new").snapshots "snap_one" = none := by
  obtain ⟨h1, h2, h3, h4, h5⟩ := C10_rollback_consumes_snapshot envBase
    demoBucket2 "ocid1.instance.a" "snap_one" ⟨"RUNNING", "AD-1", "cpt1"⟩
    demoSnap rfl rfl (by decide) ⟨none, rfl⟩ (by decide) rfl rfl rfl
    (by decide)
  exact ⟨h1, h2, by
    have := h3 (by decide)
    simpa using this, h5⟩

end SnapMgr
